import Mathlib

/-!
Shallow embedding of the frida-push repository (two Python 3 script variants:
the packaged command `src/frida_push/command.py`, embedded in namespace
`Command`, and the standalone script `src/push.py`, embedded in namespace
`Push`), together with theorems settling the frozen claims about it.

External collaborators (the adb device bridge, the HTTP client, the lzma
decompressor, the local filesystem) are modelled as explicit oracles and an
explicit filesystem state passed to the embedded functions; each embedded
function additionally returns the ordered trace of external effects it
performs, so that frame and ordering claims can be stated.
-/

/-! ## Python string model

Both scripts post-process raw collaborator output with `.lower().strip()`
(ASCII lowercasing and ASCII whitespace stripping on bytes). -/

/-- ASCII lowercasing of one character, as Python `bytes.lower` does it. -/
def asciiLower (c : Char) : Char :=
  if 'A' ≤ c ∧ c ≤ 'Z' then Char.ofNat (c.toNat + 32) else c

/-- ASCII whitespace, the set stripped by Python `bytes.strip()`. -/
def isPyWhitespace (c : Char) : Bool :=
  c = ' ' ∨ c = '\t' ∨ c = '\n' ∨ c = '\x0d' ∨ c = '\x0b' ∨ c = '\x0c'

/-- Python `.strip()`: drop leading and trailing ASCII whitespace. -/
def pyStrip (s : String) : String :=
  String.mk (((s.data.dropWhile isPyWhitespace).reverse.dropWhile isPyWhitespace).reverse)

/-- Python `.lower().strip()`, the normalisation both scripts apply to the
raw output of a collaborator command before table lookup. -/
def pyLowerStrip (s : String) : String :=
  pyStrip (String.mk (s.data.map asciiLower))

/-- A Python 3 value that is either a decoded `str` or an undecoded `bytes`
object (carrying the text its utf-8 decoding would give).  The distinction
matters: `src/push.py` line 79 omits the decode, so its getprop output stays
`bytes`. -/
inductive PyVal where
  | str (s : String)
  | bytes (s : String)
deriving DecidableEq, Repr

/-- Python `in` on a list of `str` literals: a `bytes` value never compares
equal to a `str` in Python 3, so membership is false for `bytes`. -/
def pyMem (v : PyVal) (l : List String) : Bool :=
  match v with
  | .str s => l.contains s
  | .bytes _ => false

/-- Python `==` against a `str` literal: false for a `bytes` left operand. -/
def pyEqStr (v : PyVal) (t : String) : Bool :=
  match v with
  | .str s => s == t
  | .bytes _ => false

/-! ## Architecture detection -/

namespace Command

/-- Embeds `get_device_arch` of `src/frida_push/command.py` (lines 72-93):
run `adb shell getprop ro.product.cpu.abi`, normalise the raw output with
`.lower().strip().decode("utf-8")`, look it up in the static table
`getprop_archs`, and map table hits to the canonical key.  `raw` is the raw
output of the getprop query. -/
def get_device_arch (raw : String) : Option String :=
  let getprop_archs := ["armeabi", "armeabi-v7a", "arm64-v8a", "x86", "x86_64"]
  let output := pyLowerStrip raw
  if output ∈ getprop_archs then
    if output ∈ ["armeabi", "armeabi-v7a"] then some "arm"
    else if output = "arm64-v8a" then some "arm64"
    else some output
  else none

end Command

namespace Push

/-- Embeds `get_device_arch` of `src/push.py` (lines 52-90): first try
`adb shell uname -m` (decoded to `str` via `str(..., "utf-8")`), and if that
output is not a known uname arch, fall back to
`adb shell getprop ro.product.cpu.abi` — whose output is NOT decoded
(line 79), so the fallback lookup compares a `bytes` value against `str`
table entries.  `uname_raw` and `getprop_raw` are the raw outputs of the two
queries. -/
def get_device_arch (uname_raw getprop_raw : String) : Option PyVal :=
  let uname_archs := ["i386", "i686", "arm64", "arm", "x86_64"]
  let output := PyVal.str (pyLowerStrip uname_raw)
  if pyMem output uname_archs then
    if pyMem output ["i386", "i686"] then some (.str "i386")
    else some output
  else
    let getprop_archs := ["armeabi", "armeabi-v7a", "arm64-v8a", "x86", "x86_64"]
    let output2 := PyVal.bytes (pyLowerStrip getprop_raw)
    if pyMem output2 getprop_archs then
      if pyMem output2 ["armeabi", "armeabi-v7a"] then some (.str "arm")
      else if pyEqStr output2 "arm64-v8a" then some (.str "arm64")
      else if pyEqStr output2 "x86" then some (.str "i386")
      else some output2
    else none

end Push

/-- The normalization table exactly as the specification documents it:
armeabi and armeabi-v7a normalise to arm, arm64-v8a to arm64, x86 and x86_64
to their own keys, anything else is Undetermined. -/
def specNormalize (s : String) : Option String :=
  if s = "armeabi" ∨ s = "armeabi-v7a" then some "arm"
  else if s = "arm64-v8a" then some "arm64"
  else if s = "x86" then some "x86"
  else if s = "x86_64" then some "x86_64"
  else none

/-! ## Download URL construction -/

/-- Python `str.format` with positional empty-brace placeholders, consuming the
template character by character; each placeholder takes the next argument. -/
def pyFormatChars : List Char → List String → List Char
  | '\x7b' :: '\x7d' :: rest, a :: as => a.data ++ pyFormatChars rest as
  | '\x7b' :: '\x7d' :: rest, [] => pyFormatChars rest []
  | c :: rest, as => c :: pyFormatChars rest as
  | [], _ => []

/-- The literal `base_url` template shared by `src/frida_push/command.py`
(line 99) and `src/push.py` (line 95). -/
def base_url : String :=
  "https://github.com/frida/frida/releases/download/\x7b\x7d/frida-server-\x7b\x7d-android-\x7b\x7d.xz"

/-- Embeds `prepare_download_url` (identical in `src/frida_push/command.py`
lines 96-100 and `src/push.py` lines 92-96):
`base_url.format(FRIDA_VERSION, FRIDA_VERSION, arch)`.  The module-level
global `FRIDA_VERSION` is an explicit parameter here. -/
def prepare_download_url (FRIDA_VERSION arch : String) : String :=
  String.mk (pyFormatChars base_url.data [FRIDA_VERSION, FRIDA_VERSION, arch])

/-- The URL shape the specification documents:
`base/version/frida-server-version-android-arch.xz`. -/
def specUrlTemplate (version arch : String) : String :=
  "https://github.com/frida/frida/releases/download/" ++ version ++
    "/frida-server-" ++ version ++ "-android-" ++ arch ++ ".xz"

/-! ## Filesystem, network and process-effect model

The collaborators are oracles: `Http` maps a URL to the response status and
raw body bytes, `Lzma` maps compressed bytes to decompressed bytes.  A run
returns the ordered trace of external effects it performed. -/

/-- One external effect performed by a run. -/
inductive Ev where
  | makedirs (d : String)
  | httpGet (url : String)
  | writeFile (p : String) (data : List Nat)
  | lzmaRead (p : String)
  | unlink (p : String)
  | reportDownloadError (status : Nat)
  | selectedDevice (name : String)
  | adbPush
  | adbChmod
  | adbKill
  | adbExecute
  | adbPs
  | reportPushFailure
  | reportExecFailure
deriving DecidableEq, Repr

/-- The local filesystem: files as a path-to-bytes association list, plus the
set of existing directories. -/
structure FS where
  files : List (String × List Nat)
  dirs : List String
deriving DecidableEq, Repr

/-- Content of a file, `none` when the path does not exist. -/
def FS.lookupFile (fs : FS) (p : String) : Option (List Nat) :=
  fs.files.lookup p

/-- Python `os.path.isfile`. -/
def FS.isfile (fs : FS) (p : String) : Bool :=
  (fs.lookupFile p).isSome

/-- Python `open(p, "wb")` followed by writing `d`. -/
def FS.writeFile (fs : FS) (p : String) (d : List Nat) : FS :=
  { fs with files := (p, d) :: fs.files.filter (fun e => e.1 != p) }

/-- Python `os.unlink`. -/
def FS.unlink (fs : FS) (p : String) : FS :=
  { fs with files := fs.files.filter (fun e => e.1 != p) }

/-- Python `os.makedirs` wrapped in try/except pass: creates the directory if
absent, swallows the already-exists error. -/
def FS.makedirs (fs : FS) (d : String) : FS :=
  if d ∈ fs.dirs then fs else { fs with dirs := d :: fs.dirs }

/-- HTTP oracle: `requests.get url` yields (status_code, raw body bytes). -/
def Http := String → Nat × List Nat

/-- Decompression oracle: `lzma.open(...).read()` on the archive bytes. -/
def Lzma := List Nat → List Nat

/-- `DOWNLOAD_PATH` of `src/frida_push/command.py` line 48, the expansion of
the user cache directory. -/
def DOWNLOAD_PATH : String := "~/.frida-push"

/-- Result of a `download_and_extract` run: the returned boolean, the final
filesystem, and the effect trace in order. -/
structure DlResult where
  ok : Bool
  fs : FS
  trace : List Ev
deriving DecidableEq, Repr

namespace Command

/-- Embeds `download_and_extract` of `src/frida_push/command.py`
(lines 103-144): ensure the cache directory, return True on a cache hit
unless forced, otherwise GET the url; on status 200 write the `.xz` archive,
decompress it, unlink the archive; on any other status report the error and
leave `data` as None.  The final `if data:` of the source returns False both
when `data` is None (non-200) and when the decompressed bytes are empty, and
writes the destination file only otherwise; each arm below returns what that
final check returns for it. -/
def download_and_extract (http : Http) (lzma : Lzma)
    (url fname0 : String) (force_download : Bool) (fs0 : FS) : DlResult :=
  let fs1 := fs0.makedirs DOWNLOAD_PATH
  let fname := DOWNLOAD_PATH ++ "/" ++ fname0
  if fs1.isfile fname && !force_download then
    { ok := true, fs := fs1, trace := [Ev.makedirs DOWNLOAD_PATH] }
  else
    let status := (http url).1
    let body := (http url).2
    if status = 200 then
      let archive_name := fname ++ ".xz"
      let fs2 := fs1.writeFile archive_name body
      let data := lzma body
      let fs3 := fs2.unlink archive_name
      let trace0 := [Ev.makedirs DOWNLOAD_PATH, Ev.httpGet url,
        Ev.writeFile archive_name body, Ev.lzmaRead archive_name, Ev.unlink archive_name]
      if data.isEmpty then { ok := false, fs := fs3, trace := trace0 }
      else { ok := true, fs := fs3.writeFile fname data,
             trace := trace0 ++ [Ev.writeFile fname data] }
    else
      { ok := false, fs := fs1,
        trace := [Ev.makedirs DOWNLOAD_PATH, Ev.httpGet url, Ev.reportDownloadError status] }

end Command

namespace Push

/-- Embeds `download_and_extract` of `src/push.py` (lines 98-128): no cache
directory, no cache check, no force flag, and — unlike the packaged command —
no unlink of the intermediate archive.  `fname` is used as given (relative to
the working directory). -/
def download_and_extract (http : Http) (lzma : Lzma)
    (url fname : String) (fs0 : FS) : DlResult :=
  let status := (http url).1
  let body := (http url).2
  if status = 200 then
    let archive_name := fname ++ ".xz"
    let fs1 := fs0.writeFile archive_name body
    let data := lzma body
    let trace0 := [Ev.httpGet url, Ev.writeFile archive_name body, Ev.lzmaRead archive_name]
    if data.isEmpty then { ok := false, fs := fs1, trace := trace0 }
    else { ok := true, fs := fs1.writeFile fname data,
           trace := trace0 ++ [Ev.writeFile fname data] }
  else
    { ok := false, fs := fs0,
      trace := [Ev.httpGet url, Ev.reportDownloadError status] }

end Push

/-! ## Deploy sequence and the packaged command's main -/

namespace Command

/-- Embeds `push_and_execute` of `src/frida_push/command.py` (lines 147-182):
adb push, and on non-zero push exit report the failure (with the captured
stdout/stderr) and return; otherwise chmod, kill any running frida-server,
launch it, wait up to three seconds, and report a launch failure only when
the launch exited within the window with a non-zero code.  `pushExit` is the
push process returncode; `execExit` is the launch returncode observed inside
the bounded wait (`none` when the wait timed out). -/
def push_and_execute (pushExit : Int) (execExit : Option Int) : List Ev :=
  if pushExit != 0 then [Ev.adbPush, Ev.reportPushFailure]
  else
    [Ev.adbPush, Ev.adbChmod, Ev.adbKill, Ev.adbExecute] ++
      (match execExit with
       | some c => if c != 0 then [Ev.reportExecFailure] else []
       | none => [])

end Command

namespace Push

/-- Embeds `push_and_execute` of `src/push.py` (lines 130-150): adb push via
os.system, and on exit status 0 chmod, launch detached, and capture the PID
into frida.pid; on non-zero push status report the failure.  There is no kill
step in this variant. -/
def push_and_execute (pushExit : Int) : List Ev :=
  if pushExit == 0 then [Ev.adbPush, Ev.adbChmod, Ev.adbExecute, Ev.adbPs]
  else [Ev.adbPush, Ev.reportPushFailure]

end Push

/-- The parsed command-line arguments of the packaged command. -/
structure Args where
  device_name : Option String
  force : Bool
deriving DecidableEq, Repr

/-- The external world a run of the packaged command observes: the parsed
device mapping (name to transport id) that `list_devices` returns, the
getprop oracle per transport id, the HTTP and lzma oracles, the process exit
codes of the deploy steps, the installed frida version, and the initial
filesystem. -/
structure World where
  devices : List (String × String)
  getprop : String → String
  http : Http
  lzma : Lzma
  pushExit : Int
  execExit : Option Int
  FRIDA_VERSION : String
  fs : FS

/-- How a run of main ends: an explicit `sys.exit`/`parser.exit` with a code,
or falling off the end of main. -/
inductive Outcome where
  | exited (code : Nat)
  | finished
deriving DecidableEq, Repr

namespace Command

/-- Embeds `main` of `src/frida_push/command.py` (lines 185-221): list
devices, `sys.exit(1)` when none; `parser.exit(2)` when several devices are
connected and none was named, or when the named device is absent; otherwise
default the name to the first device, look up its transport id, detect the
architecture, and when it is determined download and — only on download
success — push and execute. -/
def main (w : World) (args : Args) : Outcome × List Ev :=
  let devices := w.devices
  if devices.length == 0 then (.exited 1, [])
  else if devices.length != 1 && args.device_name.isNone then (.exited 2, [])
  else if args.device_name.isSome &&
      !((devices.map Prod.fst).contains (args.device_name.getD "")) then
    (.exited 2, [])
  else
    let device_name := match args.device_name with
      | none => (devices.headD ("", "")).1
      | some n => n
    let transport_id := (devices.lookup device_name).getD ""
    match Command.get_device_arch (w.getprop transport_id) with
    | some a =>
      let url := prepare_download_url w.FRIDA_VERSION a
      let fname := "frida-server-" ++ w.FRIDA_VERSION ++ "-android-" ++ a
      let r := Command.download_and_extract w.http w.lzma url fname args.force w.fs
      if r.ok then
        (.finished,
          Ev.selectedDevice device_name :: r.trace ++
            Command.push_and_execute w.pushExit w.execExit)
      else (.finished, Ev.selectedDevice device_name :: r.trace)
    | none => (.finished, [Ev.selectedDevice device_name])

end Command

/-! ## Concrete worlds used by the claim witnesses -/

/-- A world with no connected devices. -/
def worldNoDevice : World :=
  { devices := [], getprop := fun _ => "arm64-v8a", http := fun _ => (200, [1]),
    lzma := fun _ => [1], pushExit := 0, execExit := none,
    FRIDA_VERSION := "16.0.1", fs := { files := [], dirs := [] } }

/-- A world with two connected devices. -/
def worldTwoDevices : World :=
  { worldNoDevice with devices := [("emulator-5554", "1"), ("emulator-5556", "2")] }

/-- A world with one connected device. -/
def worldOneDevice : World :=
  { worldNoDevice with devices := [("emulator-5554", "1")] }

/-- Witness for C5: a concrete cache with the destination present. -/
def fsCached : FS :=
  { files := [(DOWNLOAD_PATH ++ "/" ++ "frida-server-16.0.1-android-arm64", [1, 2])],
    dirs := [DOWNLOAD_PATH] }

/-- A world with one connected device whose release host answers 404. -/
def worldOne404 : World :=
  { worldOneDevice with http := fun _ => (404, []) }

/-! ## Lemmas -/

/-! ### Small filesystem lemmas -/

theorem List.lookup_filter_ne_self (l : List (String × List Nat)) (p : String) :
    (l.filter (fun e => e.1 != p)).lookup p = none := by
  induction l with
  | nil => rfl
  | cons e t ih =>
    by_cases h : e.1 = p
    · simp [List.filter_cons, h, ih]
    · have hb : (p == e.1) = false := beq_eq_false_iff_ne.mpr (Ne.symm h)
      simp [List.filter_cons, List.lookup, h, hb, ih]

theorem List.lookup_filter_ne (l : List (String × List Nat)) (p q : String)
    (hpq : p ≠ q) :
    (l.filter (fun e => e.1 != q)).lookup p = l.lookup p := by
  have hb : (p == q) = false := beq_eq_false_iff_ne.mpr hpq
  induction l with
  | nil => rfl
  | cons e t ih =>
    by_cases h : e.1 = q
    · simp [List.filter_cons, h, List.lookup, hb, ih]
    · cases hpe : p == e.1 <;>
        simp [List.filter_cons, List.lookup, h, hpe, ih]

theorem FS.lookupFile_writeFile_self (fs : FS) (p : String) (d : List Nat) :
    (fs.writeFile p d).lookupFile p = some d := by
  simp [FS.writeFile, FS.lookupFile, List.lookup]

theorem FS.lookupFile_writeFile_ne (fs : FS) (p q : String) (d : List Nat)
    (h : p ≠ q) :
    (fs.writeFile q d).lookupFile p = fs.lookupFile p := by
  have hb : (p == q) = false := beq_eq_false_iff_ne.mpr h
  simp only [FS.writeFile, FS.lookupFile, List.lookup, hb]
  exact List.lookup_filter_ne fs.files p q h

theorem FS.lookupFile_unlink_self (fs : FS) (p : String) :
    (fs.unlink p).lookupFile p = none := by
  simp only [FS.unlink, FS.lookupFile]
  exact List.lookup_filter_ne_self fs.files p

theorem FS.lookupFile_unlink_ne (fs : FS) (p q : String) (h : p ≠ q) :
    (fs.unlink q).lookupFile p = fs.lookupFile p := by
  simp only [FS.unlink, FS.lookupFile]
  exact List.lookup_filter_ne fs.files p q h

theorem FS.lookupFile_makedirs (fs : FS) (d p : String) :
    (fs.makedirs d).lookupFile p = fs.lookupFile p := by
  unfold FS.makedirs
  split <;> rfl

theorem FS.isfile_makedirs (fs : FS) (d p : String) :
    (fs.makedirs d).isfile p = fs.isfile p := by
  simp [FS.isfile, FS.lookupFile_makedirs]

theorem FS.makedirs_of_mem (fs : FS) (d : String) (h : d ∈ fs.dirs) :
    fs.makedirs d = fs := by
  simp [FS.makedirs, h]

theorem String.ne_append_xz (s : String) : s ≠ s ++ ".xz" := by
  intro h
  have hl := congrArg String.length h
  rw [String.length_append] at hl
  have h3 : ".xz".length = 3 := rfl
  omega

/-- On a cache miss (destination absent or force set) with a non-200
response, the packaged command's download_and_extract reports the status and
returns False with no file change beyond the cache directory. -/
theorem Command.download_and_extract_miss_non200 (http : Http) (lzma : Lzma)
    (url fname0 : String) (force : Bool) (fs0 : FS)
    (hmiss : fs0.isfile (DOWNLOAD_PATH ++ "/" ++ fname0) = false ∨ force = true)
    (hstatus : (http url).1 ≠ 200) :
    Command.download_and_extract http lzma url fname0 force fs0 =
      { ok := false, fs := fs0.makedirs DOWNLOAD_PATH,
        trace := [Ev.makedirs DOWNLOAD_PATH, Ev.httpGet url,
          Ev.reportDownloadError (http url).1] } := by
  unfold Command.download_and_extract
  have hcond : ((fs0.makedirs DOWNLOAD_PATH).isfile (DOWNLOAD_PATH ++ "/" ++ fname0)
      && !force) = false := by
    rw [FS.isfile_makedirs]
    rcases hmiss with h | h <;> simp [h]
  simp only [hcond, Bool.false_eq_true, if_false, hstatus, if_neg hstatus]

/-! ## The claims -/

/-- C1: for every raw architecture string whose lowercased, whitespace-trimmed
form is in the static normalization table, the packaged command's
get_device_arch returns the documented canonical key (armeabi and armeabi-v7a
go to arm, arm64-v8a to arm64, x86 and x86_64 to their keys), and for every
raw string outside the table it returns Undetermined (none). -/
theorem C1_get_device_arch_matches_spec_table (raw : String) :
    Command.get_device_arch raw = specNormalize (pyLowerStrip raw) := by
  unfold Command.get_device_arch specNormalize
  by_cases h1 : pyLowerStrip raw = "armeabi" <;>
  by_cases h2 : pyLowerStrip raw = "armeabi-v7a" <;>
  by_cases h3 : pyLowerStrip raw = "arm64-v8a" <;>
  by_cases h4 : pyLowerStrip raw = "x86" <;>
  by_cases h5 : pyLowerStrip raw = "x86_64" <;>
  simp_all

/-- C2: prepare_download_url is a pure function of (version, arch) — equal
inputs give the identical URL string — and for all inputs the result matches
the fixed template base/version/frida-server-version-android-arch.xz
exactly. -/
theorem C2_prepare_download_url_pure_and_template :
    (∀ v a v2 a2, v = v2 → a = a2 →
        prepare_download_url v a = prepare_download_url v2 a2) ∧
    ∀ version arch, prepare_download_url version arch = specUrlTemplate version arch := by
  refine ⟨fun v a v2 a2 hv ha => by rw [hv, ha], fun version arch => ?_⟩
  simp [prepare_download_url, specUrlTemplate, base_url, pyFormatChars,
    String.ext_iff, String.data_append]

/-- Witness for C2: at version vX.Y.Z and canonical key arm64 the function
yields the documented scenario URL, and equal inputs agree. -/
theorem C2_witness :
    prepare_download_url "vX.Y.Z" "arm64" =
      "https://github.com/frida/frida/releases/download/vX.Y.Z/frida-server-vX.Y.Z-android-arm64.xz" ∧
    prepare_download_url "vX.Y.Z" "arm64" = prepare_download_url "vX.Y.Z" "arm64" := by
  constructor
  · rw [C2_prepare_download_url_pure_and_template.2 "vX.Y.Z" "arm64"]
    decide
  · exact C2_prepare_download_url_pure_and_template.1 "vX.Y.Z" "arm64" "vX.Y.Z" "arm64" rfl rfl

/-- C3 fails on the code: with an unrecognized uname output, for getprop
output x86 the standalone script returns Undetermined (its undecoded bytes
never match the table) while the packaged command returns x86 — the two
variants do not return the same canonical key. -/
theorem C3_counterexample :
    Push.get_device_arch "armv8l" "x86" = none ∧
    Command.get_device_arch "x86" = some "x86" ∧
    Push.get_device_arch "armv8l" "x86" ≠ (Command.get_device_arch "x86").map PyVal.str := by
  decide

/-- C3 amended: when the standalone script falls through to the getprop query
(uname output not in its table), its get_device_arch returns Undetermined for
every raw getprop string — `src/push.py` line 79 leaves the output as bytes,
which never equals a str table entry — so the two variants agree exactly on
those raw strings for which the packaged command is also Undetermined. -/
theorem C3_variants_agree_only_off_table (uname_raw getprop_raw : String)
    (hu : pyLowerStrip uname_raw ∉ ["i386", "i686", "arm64", "arm", "x86_64"]) :
    Push.get_device_arch uname_raw getprop_raw = none ∧
    (Push.get_device_arch uname_raw getprop_raw =
        (Command.get_device_arch getprop_raw).map PyVal.str ↔
      Command.get_device_arch getprop_raw = none) := by
  have hnone : Push.get_device_arch uname_raw getprop_raw = none := by
    unfold Push.get_device_arch
    simp [pyMem, List.contains, List.elem_eq_mem, hu]
  refine ⟨hnone, ?_⟩
  rw [hnone]
  constructor
  · intro h
    cases hc : Command.get_device_arch getprop_raw with
    | none => rfl
    | some s => rw [hc] at h; simp at h
  · intro h
    rw [h]
    rfl

/-- Witness for C3 amended: a concrete unrecognized uname output together with
a table getprop string on which the packaged command succeeds. -/
theorem C3_witness :
    Push.get_device_arch "armv7l" "armeabi" = none ∧
    (Push.get_device_arch "armv7l" "armeabi" =
        (Command.get_device_arch "armeabi").map PyVal.str ↔
      Command.get_device_arch "armeabi" = none) :=
  C3_variants_agree_only_off_table "armv7l" "armeabi" (by decide)

/-- C4: device selection in the packaged command's main: zero connected
devices exits with code 1; more than one device and no requested name exits
with code 2; a requested name absent from the device mapping (with at least
one device connected) exits with code 2 — each failure with an empty effect
trace, hence a non-zero exit before any download or deploy operation — and
with exactly one device and no requested name, that device is the one
selected. -/
theorem C4_device_selection (w : World) (args : Args) :
    (w.devices = [] → Command.main w args = (.exited 1, [])) ∧
    (1 < w.devices.length → args.device_name = none →
      Command.main w args = (.exited 2, [])) ∧
    (∀ n, w.devices ≠ [] → args.device_name = some n →
      n ∉ w.devices.map Prod.fst → Command.main w args = (.exited 2, [])) ∧
    (∀ nm tid, w.devices = [(nm, tid)] → args.device_name = none →
      ∃ rest, (Command.main w args).2 = Ev.selectedDevice nm :: rest) := by
  refine ⟨?_, ?_, ?_, ?_⟩
  · intro h
    simp [Command.main, h]
  · intro hlen hname
    have h0 : (w.devices.length == 0) = false :=
      beq_eq_false_iff_ne.mpr (by omega)
    have h1 : (w.devices.length != 1) = true :=
      bne_iff_ne.mpr (by omega)
    simp only [Command.main, h0, h1, hname, Option.isNone_none, Bool.and_self]
    simp
  · intro n hne hname hnotin
    have h0 : (w.devices.length == 0) = false := by
      refine beq_eq_false_iff_ne.mpr ?_
      intro hh
      exact hne (List.length_eq_zero.mp hh)
    have hcond2 : (w.devices.length != 1 && args.device_name.isNone) = false := by
      rw [hname]
      simp
    have hcond3 : (args.device_name.isSome &&
        !((w.devices.map Prod.fst).contains (args.device_name.getD ""))) = true := by
      rw [hname]
      simp only [Option.isSome_some, Option.getD_some, Bool.true_and, Bool.not_eq_true']
      rw [List.contains, List.elem_eq_mem]
      simp [hnotin]
    simp only [Command.main, h0, hcond2, hcond3]
    simp
  · intro nm tid hdev hname
    simp only [Command.main, hdev, hname]
    simp only [List.length_cons, List.length_nil, Option.isNone_none, Option.isSome_none,
      List.headD_cons, List.lookup_cons_self, Option.getD_some, Bool.false_and]
    norm_num
    cases harch : Command.get_device_arch (w.getprop tid) with
    | none => exact ⟨[], rfl⟩
    | some a =>
      cases hok : (Command.download_and_extract w.http w.lzma
          (prepare_download_url w.FRIDA_VERSION a)
          ("frida-server-" ++ w.FRIDA_VERSION ++ "-android-" ++ a)
          args.force w.fs).ok with
      | true => simp only [hok, if_true]; exact ⟨_, rfl⟩
      | false => simp only [hok, Bool.false_eq_true, if_false]; exact ⟨_, rfl⟩

/-- Witness for C4, at concrete worlds: zero devices exits 1; two devices and
no requested name exits 2; a requested absent name exits 2; one device and no
requested name selects it. -/
theorem C4_witness :
    Command.main worldNoDevice { device_name := none, force := false } =
      (.exited 1, []) ∧
    Command.main worldTwoDevices { device_name := none, force := false } =
      (.exited 2, []) ∧
    Command.main worldOneDevice { device_name := some "nexus", force := false } =
      (.exited 2, []) ∧
    ∃ rest, (Command.main worldOneDevice { device_name := none, force := false }).2 =
      Ev.selectedDevice "emulator-5554" :: rest := by
  refine ⟨?_, ?_, ?_, ?_⟩
  · exact (C4_device_selection worldNoDevice _).1 rfl
  · exact (C4_device_selection worldTwoDevices _).2.1 (by decide) rfl
  · exact (C4_device_selection worldOneDevice _).2.2.1 "nexus" (by decide) rfl (by decide)
  · exact (C4_device_selection worldOneDevice _).2.2.2 "emulator-5554" "1" rfl rfl

/-- C5: on a cache hit — the destination file exists in the cache directory
(hence the cache directory exists) and force is false — the packaged
command's download_and_extract returns True, performs no network request, and
leaves the filesystem unchanged. -/
theorem C5_cache_hit_no_network_no_change (http : Http) (lzma : Lzma)
    (url fname0 : String) (fs0 : FS)
    (hfile : fs0.isfile (DOWNLOAD_PATH ++ "/" ++ fname0) = true)
    (hdir : DOWNLOAD_PATH ∈ fs0.dirs) :
    (Command.download_and_extract http lzma url fname0 false fs0).ok = true ∧
    (Command.download_and_extract http lzma url fname0 false fs0).fs = fs0 ∧
    ∀ u, Ev.httpGet u ∉ (Command.download_and_extract http lzma url fname0 false fs0).trace := by
  have heq : Command.download_and_extract http lzma url fname0 false fs0 =
      { ok := true, fs := fs0, trace := [Ev.makedirs DOWNLOAD_PATH] } := by
    unfold Command.download_and_extract
    rw [FS.makedirs_of_mem fs0 DOWNLOAD_PATH hdir]
    simp [hfile]
  rw [heq]
  refine ⟨rfl, rfl, ?_⟩
  intro u hmem
  simp at hmem

/-- Witness for C5 at a concrete filesystem, URL and oracles. -/
theorem C5_witness :
    (Command.download_and_extract (fun _ => (200, [9])) (fun _ => [7]) "u"
      "frida-server-16.0.1-android-arm64" false fsCached).ok = true ∧
    (Command.download_and_extract (fun _ => (200, [9])) (fun _ => [7]) "u"
      "frida-server-16.0.1-android-arm64" false fsCached).fs = fsCached ∧
    Ev.httpGet "u" ∉ (Command.download_and_extract (fun _ => (200, [9])) (fun _ => [7]) "u"
      "frida-server-16.0.1-android-arm64" false fsCached).trace := by
  have h := C5_cache_hit_no_network_no_change (fun _ => (200, [9])) (fun _ => [7]) "u"
    "frida-server-16.0.1-android-arm64" fsCached (by decide) (by decide)
  exact ⟨h.1, h.2.1, h.2.2 "u"⟩

/-- On any non-200 response the standalone script's download_and_extract
reports the status and returns False with the filesystem untouched. -/
theorem Push.download_and_extract_non200 (http : Http) (lzma : Lzma)
    (url fname : String) (fs0 : FS) (hstatus : (http url).1 ≠ 200) :
    Push.download_and_extract http lzma url fname fs0 =
      { ok := false, fs := fs0,
        trace := [Ev.httpGet url, Ev.reportDownloadError (http url).1] } := by
  unfold Push.download_and_extract
  simp only [if_neg hstatus]

theorem FS.files_makedirs (fs : FS) (d : String) :
    (fs.makedirs d).files = fs.files := by
  unfold FS.makedirs
  split <;> rfl

/-- C6: on any HTTP status other than 200 (given the download is actually
attempted, i.e. no cache hit), download_and_extract in both variants reports
the status and returns False without crashing, writes neither the destination
file nor the archive file, and the packaged command's main consequently never
reaches the push/deploy step in such a run. -/
theorem C6_non200_reports_failure_no_write_no_push :
    (∀ (http : Http) (lzma : Lzma) (url fname0 : String) (force : Bool) (fs0 : FS),
      (fs0.isfile (DOWNLOAD_PATH ++ "/" ++ fname0) = false ∨ force = true) →
      (http url).1 ≠ 200 →
      (Command.download_and_extract http lzma url fname0 force fs0).ok = false ∧
      (Command.download_and_extract http lzma url fname0 force fs0).fs.files = fs0.files ∧
      Ev.reportDownloadError (http url).1 ∈
        (Command.download_and_extract http lzma url fname0 force fs0).trace ∧
      ∀ p d, Ev.writeFile p d ∉
        (Command.download_and_extract http lzma url fname0 force fs0).trace) ∧
    (∀ (http : Http) (lzma : Lzma) (url fname : String) (fs0 : FS),
      (http url).1 ≠ 200 →
      (Push.download_and_extract http lzma url fname fs0).ok = false ∧
      (Push.download_and_extract http lzma url fname fs0).fs = fs0 ∧
      Ev.reportDownloadError (http url).1 ∈
        (Push.download_and_extract http lzma url fname fs0).trace ∧
      ∀ p d, Ev.writeFile p d ∉
        (Push.download_and_extract http lzma url fname fs0).trace) ∧
    (∀ (w : World) (args : Args),
      args.force = true → (∀ u, (w.http u).1 ≠ 200) →
      Ev.adbPush ∉ (Command.main w args).2) := by
  refine ⟨?_, ?_, ?_⟩
  · intro http lzma url fname0 force fs0 hmiss hstatus
    rw [Command.download_and_extract_miss_non200 http lzma url fname0 force fs0 hmiss hstatus]
    refine ⟨rfl, FS.files_makedirs fs0 DOWNLOAD_PATH, by simp, ?_⟩
    intro p d hmem
    simp at hmem
  · intro http lzma url fname fs0 hstatus
    rw [Push.download_and_extract_non200 http lzma url fname fs0 hstatus]
    refine ⟨rfl, rfl, by simp, ?_⟩
    intro p d hmem
    simp at hmem
  · intro w args hforce hhttp
    have heq : ∀ a, Command.download_and_extract w.http w.lzma
        (prepare_download_url w.FRIDA_VERSION a)
        ("frida-server-" ++ w.FRIDA_VERSION ++ "-android-" ++ a)
        args.force w.fs =
        { ok := false, fs := w.fs.makedirs DOWNLOAD_PATH,
          trace := [Ev.makedirs DOWNLOAD_PATH,
            Ev.httpGet (prepare_download_url w.FRIDA_VERSION a),
            Ev.reportDownloadError (w.http (prepare_download_url w.FRIDA_VERSION a)).1] } :=
      fun a => Command.download_and_extract_miss_non200 w.http w.lzma
        (prepare_download_url w.FRIDA_VERSION a)
        ("frida-server-" ++ w.FRIDA_VERSION ++ "-android-" ++ a)
        args.force w.fs (Or.inr hforce) (hhttp (prepare_download_url w.FRIDA_VERSION a))
    unfold Command.main
    simp only [heq]
    split
    · simp
    · split
      · simp
      · split
        · simp
        · split <;> split <;> simp_all

/-- Witness for C6 at a concrete 404 response: failure returned, no file
written, error reported, and a one-device forced run never pushes. -/
theorem C6_witness :
    ((Command.download_and_extract (fun _ => (404, [])) (fun _ => [9]) "u" "f" false
        { files := [], dirs := [] }).ok = false ∧
      (Command.download_and_extract (fun _ => (404, [])) (fun _ => [9]) "u" "f" false
        { files := [], dirs := [] }).fs.files = [] ∧
      Ev.reportDownloadError 404 ∈
        (Command.download_and_extract (fun _ => (404, [])) (fun _ => [9]) "u" "f" false
          { files := [], dirs := [] }).trace ∧
      Ev.writeFile "f" [1] ∉
        (Command.download_and_extract (fun _ => (404, [])) (fun _ => [9]) "u" "f" false
          { files := [], dirs := [] }).trace) ∧
    ((Push.download_and_extract (fun _ => (404, [])) (fun _ => [9]) "u" "f"
        { files := [], dirs := [] }).ok = false ∧
      Ev.writeFile "f" [1] ∉
        (Push.download_and_extract (fun _ => (404, [])) (fun _ => [9]) "u" "f"
          { files := [], dirs := [] }).trace) ∧
    Ev.adbPush ∉ (Command.main worldOne404
      { device_name := none, force := true }).2 := by
  have ha := C6_non200_reports_failure_no_write_no_push.1 (fun _ => (404, []))
    (fun _ => [9]) "u" "f" false { files := [], dirs := [] } (Or.inl rfl) (by decide)
  have hb := C6_non200_reports_failure_no_write_no_push.2.1 (fun _ => (404, []))
    (fun _ => [9]) "u" "f" { files := [], dirs := [] } (by decide)
  have hc := C6_non200_reports_failure_no_write_no_push.2.2 worldOne404
    { device_name := none, force := true } rfl
    (fun u => by show (404 : Nat) ≠ 200; decide)
  exact ⟨⟨ha.1, ha.2.1, ha.2.2.1, ha.2.2.2 "f" [1]⟩, ⟨hb.1, hb.2.2.2 "f" [1]⟩, hc⟩

/-- C7: whenever the push step exits non-zero, both variants report the
failure (with the captured output) and halt: the returned trace is exactly
push-then-report, and the chmod, kill and launch steps never run. -/
theorem C7_push_failure_halts_deploy (pushExit : Int) (execExit : Option Int)
    (h : pushExit ≠ 0) :
    Command.push_and_execute pushExit execExit = [Ev.adbPush, Ev.reportPushFailure] ∧
    Push.push_and_execute pushExit = [Ev.adbPush, Ev.reportPushFailure] ∧
    Ev.adbChmod ∉ Command.push_and_execute pushExit execExit ∧
    Ev.adbKill ∉ Command.push_and_execute pushExit execExit ∧
    Ev.adbExecute ∉ Command.push_and_execute pushExit execExit ∧
    Ev.adbChmod ∉ Push.push_and_execute pushExit ∧
    Ev.adbExecute ∉ Push.push_and_execute pushExit := by
  have hb : (pushExit != 0) = true := bne_iff_ne.mpr h
  have hb2 : (pushExit == 0) = false := beq_eq_false_iff_ne.mpr h
  unfold Command.push_and_execute Push.push_and_execute
  simp [hb, hb2]

/-- Witness for C7 at push exit code 1. -/
theorem C7_witness :
    Command.push_and_execute 1 none = [Ev.adbPush, Ev.reportPushFailure] ∧
    Push.push_and_execute 1 = [Ev.adbPush, Ev.reportPushFailure] :=
  ⟨(C7_push_failure_halts_deploy 1 none (by decide)).1,
   (C7_push_failure_halts_deploy 1 none (by decide)).2.1⟩

/-- C9 fails on the code: the standalone script's deploy sequence reaches the
launch step (push succeeded, exit 0) without ever issuing a kill — it has no
kill step at all. -/
theorem C9_counterexample :
    Ev.adbExecute ∈ Push.push_and_execute 0 ∧
    Ev.adbKill ∉ Push.push_and_execute 0 := by
  decide

/-- C9 amended: in the packaged command every deploy run that reaches the
launch step issues the kill command strictly before the launch command; the
standalone script's variant has no kill step at all and launches without
one. -/
theorem C9_kill_precedes_launch_in_command (pushExit : Int) (execExit : Option Int)
    (hreach : Ev.adbExecute ∈ Command.push_and_execute pushExit execExit) :
    (∃ l1 l2, Command.push_and_execute pushExit execExit = l1 ++ Ev.adbKill :: l2 ∧
      Ev.adbExecute ∈ l2) ∧
    ∀ pe : Int, Ev.adbKill ∉ Push.push_and_execute pe := by
  constructor
  · by_cases h0 : pushExit = 0
    · subst h0
      unfold Command.push_and_execute
      cases execExit with
      | none => exact ⟨[Ev.adbPush, Ev.adbChmod], [Ev.adbExecute], by simp, by simp⟩
      | some c =>
        by_cases hc : c = 0
        · subst hc
          exact ⟨[Ev.adbPush, Ev.adbChmod], [Ev.adbExecute], by simp, by simp⟩
        · exact ⟨[Ev.adbPush, Ev.adbChmod], [Ev.adbExecute, Ev.reportExecFailure],
            by simp [bne_iff_ne.mpr hc], by simp⟩
    · rw [(C7_push_failure_halts_deploy pushExit execExit h0).1] at hreach
      simp at hreach
  · intro pe
    unfold Push.push_and_execute
    cases hpe : pe == 0 <;> simp

/-- Witness for C9 amended: a successful push with an in-window clean launch
exit. -/
theorem C9_witness :
    (∃ l1 l2, Command.push_and_execute 0 (some 0) = l1 ++ Ev.adbKill :: l2 ∧
      Ev.adbExecute ∈ l2) ∧
    Ev.adbKill ∉ Push.push_and_execute 5 := by
  have h := C9_kill_precedes_launch_in_command 0 (some 0) (by decide)
  exact ⟨h.1, h.2 5⟩

/-- The packaged command's download_and_extract on a cache miss with a 200
response and non-empty decompressed bytes: it writes the archive, reads it
back decompressed, unlinks the archive, and only then writes the destination,
returning True. -/
theorem Command.download_and_extract_200_success (http : Http) (lzma : Lzma)
    (url fname0 : String) (force : Bool) (fs0 : FS)
    (hmiss : fs0.isfile (DOWNLOAD_PATH ++ "/" ++ fname0) = false ∨ force = true)
    (h200 : (http url).1 = 200)
    (hdata : (lzma (http url).2).isEmpty = false) :
    Command.download_and_extract http lzma url fname0 force fs0 =
      { ok := true,
        fs := (((fs0.makedirs DOWNLOAD_PATH).writeFile
            (DOWNLOAD_PATH ++ "/" ++ fname0 ++ ".xz") (http url).2).unlink
            (DOWNLOAD_PATH ++ "/" ++ fname0 ++ ".xz")).writeFile
            (DOWNLOAD_PATH ++ "/" ++ fname0) (lzma (http url).2),
        trace := [Ev.makedirs DOWNLOAD_PATH, Ev.httpGet url,
          Ev.writeFile (DOWNLOAD_PATH ++ "/" ++ fname0 ++ ".xz") (http url).2,
          Ev.lzmaRead (DOWNLOAD_PATH ++ "/" ++ fname0 ++ ".xz"),
          Ev.unlink (DOWNLOAD_PATH ++ "/" ++ fname0 ++ ".xz"),
          Ev.writeFile (DOWNLOAD_PATH ++ "/" ++ fname0) (lzma (http url).2)] } := by
  unfold Command.download_and_extract
  have hcond : ((fs0.makedirs DOWNLOAD_PATH).isfile (DOWNLOAD_PATH ++ "/" ++ fname0)
      && !force) = false := by
    rw [FS.isfile_makedirs]
    rcases hmiss with h | h <;> simp [h]
  simp [hcond, h200, hdata]

/-- The packaged command's download_and_extract on a cache miss with a 200
response whose archive decompresses to empty bytes: the archive is written
and unlinked, no destination file is written, and False is returned. -/
theorem Command.download_and_extract_200_empty (http : Http) (lzma : Lzma)
    (url fname0 : String) (force : Bool) (fs0 : FS)
    (hmiss : fs0.isfile (DOWNLOAD_PATH ++ "/" ++ fname0) = false ∨ force = true)
    (h200 : (http url).1 = 200)
    (hdata : (lzma (http url).2).isEmpty = true) :
    Command.download_and_extract http lzma url fname0 force fs0 =
      { ok := false,
        fs := ((fs0.makedirs DOWNLOAD_PATH).writeFile
            (DOWNLOAD_PATH ++ "/" ++ fname0 ++ ".xz") (http url).2).unlink
            (DOWNLOAD_PATH ++ "/" ++ fname0 ++ ".xz"),
        trace := [Ev.makedirs DOWNLOAD_PATH, Ev.httpGet url,
          Ev.writeFile (DOWNLOAD_PATH ++ "/" ++ fname0 ++ ".xz") (http url).2,
          Ev.lzmaRead (DOWNLOAD_PATH ++ "/" ++ fname0 ++ ".xz"),
          Ev.unlink (DOWNLOAD_PATH ++ "/" ++ fname0 ++ ".xz")] } := by
  unfold Command.download_and_extract
  have hcond : ((fs0.makedirs DOWNLOAD_PATH).isfile (DOWNLOAD_PATH ++ "/" ++ fname0)
      && !force) = false := by
    rw [FS.isfile_makedirs]
    rcases hmiss with h | h <;> simp [h]
  simp [hcond, h200, hdata]

/-- The standalone script's download_and_extract on a 200 response with
non-empty decompressed bytes: writes the archive and the destination and
returns True — the archive is never unlinked. -/
theorem Push.download_and_extract_success_200 (http : Http) (lzma : Lzma)
    (url fname : String) (fs0 : FS)
    (h200 : (http url).1 = 200)
    (hdata : (lzma (http url).2).isEmpty = false) :
    Push.download_and_extract http lzma url fname fs0 =
      { ok := true,
        fs := (fs0.writeFile (fname ++ ".xz") (http url).2).writeFile fname
          (lzma (http url).2),
        trace := [Ev.httpGet url, Ev.writeFile (fname ++ ".xz") (http url).2,
          Ev.lzmaRead (fname ++ ".xz"), Ev.writeFile fname (lzma (http url).2)] } := by
  unfold Push.download_and_extract
  simp [h200, hdata]

/-- The standalone script's download_and_extract on a 200 response whose
archive decompresses to empty bytes: only the archive is written and False is
returned. -/
theorem Push.download_and_extract_empty_200 (http : Http) (lzma : Lzma)
    (url fname : String) (fs0 : FS)
    (h200 : (http url).1 = 200)
    (hdata : (lzma (http url).2).isEmpty = true) :
    Push.download_and_extract http lzma url fname fs0 =
      { ok := false,
        fs := fs0.writeFile (fname ++ ".xz") (http url).2,
        trace := [Ev.httpGet url, Ev.writeFile (fname ++ ".xz") (http url).2,
          Ev.lzmaRead (fname ++ ".xz")] } := by
  unfold Push.download_and_extract
  simp [h200, hdata]

/-- C8 fails on the code: in the standalone script a successful non-cached
fetch (status 200, non-empty decompressed bytes, True returned) leaves the
intermediate compressed .xz archive on disk — it is never removed. -/
theorem C8_counterexample :
    (Push.download_and_extract (fun _ => (200, [1, 2])) (fun _ => [7]) "u" "f"
      { files := [], dirs := [] }).ok = true ∧
    (Push.download_and_extract (fun _ => (200, [1, 2])) (fun _ => [7]) "u" "f"
      { files := [], dirs := [] }).fs.lookupFile ("f" ++ ".xz") = some [1, 2] := by
  decide

/-- C8 amended: on a successful download (status 200) and decompression to
non-empty bytes, the packaged command's download_and_extract writes the
decompressed bytes to the destination and removes the intermediate .xz file
(the removal in fact happens before the destination write), so after its
successful non-cached fetches the archive no longer exists; the standalone
script's variant also writes the destination but leaves the .xz archive in
place. -/
theorem C8_archive_removed_only_in_command (http : Http) (lzma : Lzma)
    (url fname0 : String) (force : Bool) (fs0 : FS)
    (hmiss : fs0.isfile (DOWNLOAD_PATH ++ "/" ++ fname0) = false ∨ force = true)
    (h200 : (http url).1 = 200)
    (hdata : (lzma (http url).2).isEmpty = false) :
    ((Command.download_and_extract http lzma url fname0 force fs0).ok = true ∧
      (Command.download_and_extract http lzma url fname0 force fs0).fs.lookupFile
        (DOWNLOAD_PATH ++ "/" ++ fname0) = some (lzma (http url).2) ∧
      (Command.download_and_extract http lzma url fname0 force fs0).fs.lookupFile
        (DOWNLOAD_PATH ++ "/" ++ fname0 ++ ".xz") = none ∧
      ∃ l1 l2, (Command.download_and_extract http lzma url fname0 force fs0).trace =
        l1 ++ Ev.unlink (DOWNLOAD_PATH ++ "/" ++ fname0 ++ ".xz") ::
          (l2 ++ [Ev.writeFile (DOWNLOAD_PATH ++ "/" ++ fname0) (lzma (http url).2)])) ∧
    ((Push.download_and_extract http lzma url fname0 fs0).ok = true ∧
      (Push.download_and_extract http lzma url fname0 fs0).fs.lookupFile fname0 =
        some (lzma (http url).2) ∧
      (Push.download_and_extract http lzma url fname0 fs0).fs.lookupFile
        (fname0 ++ ".xz") = some (http url).2) := by
  have hne : (DOWNLOAD_PATH ++ "/" ++ fname0) ≠ (DOWNLOAD_PATH ++ "/" ++ fname0 ++ ".xz") :=
    String.ne_append_xz (DOWNLOAD_PATH ++ "/" ++ fname0)
  have hne2 : fname0 ≠ fname0 ++ ".xz" := String.ne_append_xz fname0
  rw [Command.download_and_extract_200_success http lzma url fname0 force fs0 hmiss h200 hdata,
    Push.download_and_extract_success_200 http lzma url fname0 fs0 h200 hdata]
  refine ⟨⟨rfl, ?_, ?_, ?_⟩, rfl, ?_, ?_⟩
  · exact FS.lookupFile_writeFile_self _ _ _
  · rw [FS.lookupFile_writeFile_ne _ _ _ _ (Ne.symm hne)]
    exact FS.lookupFile_unlink_self _ _
  · exact ⟨[Ev.makedirs DOWNLOAD_PATH, Ev.httpGet url,
      Ev.writeFile (DOWNLOAD_PATH ++ "/" ++ fname0 ++ ".xz") (http url).2,
      Ev.lzmaRead (DOWNLOAD_PATH ++ "/" ++ fname0 ++ ".xz")], [], by simp⟩
  · exact FS.lookupFile_writeFile_self _ _ _
  · rw [FS.lookupFile_writeFile_ne _ _ _ _ (Ne.symm hne2)]
    exact FS.lookupFile_writeFile_self _ _ _

/-- Witness for C8 amended at concrete oracles: archive gone and destination
written for the packaged command, archive still present for the standalone
script. -/
theorem C8_witness :
    ((Command.download_and_extract (fun _ => (200, [1, 2])) (fun _ => [7]) "u" "f" false
        { files := [], dirs := [] }).ok = true ∧
      (Command.download_and_extract (fun _ => (200, [1, 2])) (fun _ => [7]) "u" "f" false
        { files := [], dirs := [] }).fs.lookupFile (DOWNLOAD_PATH ++ "/" ++ "f") = some [7] ∧
      (Command.download_and_extract (fun _ => (200, [1, 2])) (fun _ => [7]) "u" "f" false
        { files := [], dirs := [] }).fs.lookupFile (DOWNLOAD_PATH ++ "/" ++ "f" ++ ".xz") =
        none ∧
      ∃ l1 l2, (Command.download_and_extract (fun _ => (200, [1, 2])) (fun _ => [7]) "u" "f"
          false { files := [], dirs := [] }).trace =
        l1 ++ Ev.unlink (DOWNLOAD_PATH ++ "/" ++ "f" ++ ".xz") ::
          (l2 ++ [Ev.writeFile (DOWNLOAD_PATH ++ "/" ++ "f") [7]])) ∧
    ((Push.download_and_extract (fun _ => (200, [1, 2])) (fun _ => [7]) "u" "f"
        { files := [], dirs := [] }).ok = true ∧
      (Push.download_and_extract (fun _ => (200, [1, 2])) (fun _ => [7]) "u" "f"
        { files := [], dirs := [] }).fs.lookupFile "f" = some [7] ∧
      (Push.download_and_extract (fun _ => (200, [1, 2])) (fun _ => [7]) "u" "f"
        { files := [], dirs := [] }).fs.lookupFile ("f" ++ ".xz") = some [1, 2]) :=
  C8_archive_removed_only_in_command (fun _ => (200, [1, 2])) (fun _ => [7]) "u" "f" false
    { files := [], dirs := [] } (Or.inl rfl) rfl rfl

/-- C10: when the download succeeds with status 200 but the archive
decompresses to empty bytes, download_and_extract in both variants returns
False and does not write the destination file — its content is exactly what
it was before the call. -/
theorem C10_empty_extraction_is_failure (http : Http) (lzma : Lzma)
    (url fname0 : String) (force : Bool) (fs0 : FS)
    (hmiss : fs0.isfile (DOWNLOAD_PATH ++ "/" ++ fname0) = false ∨ force = true)
    (h200 : (http url).1 = 200)
    (hempty : (lzma (http url).2).isEmpty = true) :
    ((Command.download_and_extract http lzma url fname0 force fs0).ok = false ∧
      (Command.download_and_extract http lzma url fname0 force fs0).fs.lookupFile
        (DOWNLOAD_PATH ++ "/" ++ fname0) = fs0.lookupFile (DOWNLOAD_PATH ++ "/" ++ fname0)) ∧
    ((Push.download_and_extract http lzma url fname0 fs0).ok = false ∧
      (Push.download_and_extract http lzma url fname0 fs0).fs.lookupFile fname0 =
        fs0.lookupFile fname0) := by
  have hne : (DOWNLOAD_PATH ++ "/" ++ fname0) ≠ (DOWNLOAD_PATH ++ "/" ++ fname0 ++ ".xz") :=
    String.ne_append_xz (DOWNLOAD_PATH ++ "/" ++ fname0)
  have hne2 : fname0 ≠ fname0 ++ ".xz" := String.ne_append_xz fname0
  rw [Command.download_and_extract_200_empty http lzma url fname0 force fs0 hmiss h200 hempty,
    Push.download_and_extract_empty_200 http lzma url fname0 fs0 h200 hempty]
  refine ⟨⟨rfl, ?_⟩, rfl, ?_⟩
  · rw [FS.lookupFile_unlink_ne _ _ _ hne, FS.lookupFile_writeFile_ne _ _ _ _ hne,
      FS.lookupFile_makedirs]
  · rw [FS.lookupFile_writeFile_ne _ _ _ _ hne2]

/-- Witness for C10: a 200 response whose archive decompresses to nothing. -/
theorem C10_witness :
    ((Command.download_and_extract (fun _ => (200, [1])) (fun _ => []) "u" "f" false
        { files := [], dirs := [] }).ok = false ∧
      (Command.download_and_extract (fun _ => (200, [1])) (fun _ => []) "u" "f" false
        { files := [], dirs := [] }).fs.lookupFile (DOWNLOAD_PATH ++ "/" ++ "f") =
        FS.lookupFile { files := [], dirs := [] } (DOWNLOAD_PATH ++ "/" ++ "f")) ∧
    ((Push.download_and_extract (fun _ => (200, [1])) (fun _ => []) "u" "f"
        { files := [], dirs := [] }).ok = false ∧
      (Push.download_and_extract (fun _ => (200, [1])) (fun _ => []) "u" "f"
        { files := [], dirs := [] }).fs.lookupFile "f" =
        FS.lookupFile { files := [], dirs := [] } "f") :=
  C10_empty_extraction_is_failure (fun _ => (200, [1])) (fun _ => []) "u" "f" false
    { files := [], dirs := [] } (Or.inl rfl) rfl rfl
